import Mathlib

/-!
Verification of the dp double-pipe orchestrator (src/dp.c): a shallow
embedding of its command-line parsing, pipe setup, process launching,
relay (tee) loop and supervisor cleanup, with theorems checking the
specified behavior against the code.
-/

namespace DP

/-! ## Command-line parsing (main, src/dp.c lines 29-80) -/

/-- Diagnostic printed when invoked with no arguments (src/dp.c line 38). -/
def USAGE_MSG : String := "Usage: dp <cmd1 arg...> : <cmd2 arg...> : <cmd3 arg....>"

/-- Diagnostic printed when no separator is found (src/dp.c line 51). -/
def ONE_CMD_MSG : String := "Bad command syntax - only one command found"

/-- Diagnostic printed when the second separator is missing (src/dp.c line 65). -/
def TWO_CMD_MSG : String := "Bad command syntax - only two commands found"

/-- Diagnostic printed when nothing follows the second separator (src/dp.c line 75). -/
def THIRD_CMD_MSG : String := "Bad command syntax - missing third command"

/-- Result of the argument parsing in main: either an exit-1 usage error
carrying its diagnostic, or the three token lists destined for execvp.
An empty token list models a cmd array whose slot 0 already holds the
NULL terminator. -/
inductive ParseResult where
  | usageError (msg : String)
  | ok (cmd1 cmd2 cmd3 : List String)
deriving DecidableEq, Repr

/-- One scanning loop of main (src/dp.c lines 43-47 and 57-61): copies
tokens until a separator token. Returns the copied tokens and, when a
separator was found, the remaining tokens after it; none models the
loop running off the end of argv (i == argc, no separator). -/
def scanCmd : List String → List String × Option (List String)
  | [] => ([], none)
  | a :: as =>
    if a = ":" then ([], some as)
    else
      let r := scanCmd as
      (a :: r.1, r.2)

/-- Parsing of argv[1..] in main (src/dp.c lines 36-77): usage message when
there are no arguments; first command up to the first separator, error when
the separator is absent; second command up to the next separator, error
when absent; the rest of argv is the third command, error when it is
empty. -/
def parseArgs (args : List String) : ParseResult :=
  if args = [] then .usageError USAGE_MSG
  else
    match scanCmd args with
    | (_, none) => .usageError ONE_CMD_MSG
    | (cmd1, some rest1) =>
      match scanCmd rest1 with
      | (_, none) => .usageError TWO_CMD_MSG
      | (cmd2, some rest2) =>
        if rest2 = [] then .usageError THIRD_CMD_MSG
        else .ok cmd1 cmd2 rest2

/-! ## Unchecked bound of the cmd arrays (src/dp.c lines 32-48) -/

/-- Capacity of each cmd array: char *cmd1[10] (src/dp.c lines 33-35). -/
def CMD_CAPACITY : Nat := 10

/-- Array indices stored to while main copies one command of k tokens: the
scanning loop writes cmd[0] .. cmd[k-1] (src/dp.c lines 43-47), then the
terminator write stores NULL at cmd[k] (line 48); no index is ever checked
against the capacity of the array. -/
def cmdIndicesWritten (k : Nat) : List Nat := List.range (k + 1)

/-! ## The relay (tee) loop (src/dp.c lines 161-184) -/

/-- Read-block size of the tee loop: char buffer[1024] (src/dp.c line 169). -/
def BUFFER_SIZE : Nat := 1024

/-- The relay (tee) copy loop (src/dp.c lines 171-174) under an explicit
write model. chunks is the sequence of successful reads: each read returns
a nonempty block of at most BUFFER_SIZE bytes and the loop exits at the
first zero-length read. For iteration i, the oracle o gives the number of
bytes the kernel accepts from the single write call to leg1 and from the
single write call to leg2; the code issues one write per leg with the full
block and discards the returned count. The result is the pair of byte
streams delivered into the leg1 and leg2 pipes. -/
def relayRun (chunks : List (List Nat)) (o : Nat → Nat × Nat) (i : Nat) :
    List Nat × List Nat :=
  match chunks with
  | [] => ([], [])
  | c :: cs =>
    let rest := relayRun cs o (i + 1)
    (c.take (o i).1 ++ rest.1, c.take (o i).2 ++ rest.2)

/-- Observable events of one run of the tee loop. -/
inductive RelayEvent where
  | readChunk (c : List Nat)
  | writeLeg1 (delivered : List Nat)
  | writeLeg2 (delivered : List Nat)
deriving DecidableEq, Repr

/-- Event trace of the tee loop (src/dp.c lines 171-174): each iteration
reads one block, then issues exactly one write to leg1 and then exactly one
write to leg2, in that order; there is no inner loop around either write. -/
def relayTrace (chunks : List (List Nat)) (o : Nat → Nat × Nat) (i : Nat) :
    List RelayEvent :=
  match chunks with
  | [] => []
  | c :: cs =>
    RelayEvent.readChunk c :: RelayEvent.writeLeg1 (c.take (o i).1)
      :: RelayEvent.writeLeg2 (c.take (o i).2) :: relayTrace cs o (i + 1)

/-- Recognizes a write event on the leg1 endpoint. -/
def isWriteLeg1 : RelayEvent → Bool
  | .writeLeg1 _ => true
  | _ => false

/-- Recognizes a write event on the leg2 endpoint. -/
def isWriteLeg2 : RelayEvent → Bool
  | .writeLeg2 _ => true
  | _ => false

/-! ## Pipe endpoints and the tee close calls (src/dp.c lines 141-184) -/

/-- The six descriptors created by the three pipe() calls
(src/dp.c line 141): read and write end of head_to_tee, tee_to_leg1 and
tee_to_leg2. -/
inductive Endpoint where
  | headToTeeR | headToTeeW | teeToLeg1R | teeToLeg1W | teeToLeg2R | teeToLeg2W
deriving DecidableEq, Repr, Fintype

/-- Endpoint close calls issued by the tee child before its loop
(src/dp.c lines 164-166): head_to_tee[1], tee_to_leg1[0] and, at line 166,
tee_to_leg1[0] again. -/
def teeInitialCloses : List Endpoint :=
  [.headToTeeW, .teeToLeg1R, .teeToLeg1R]

/-- Endpoint close calls issued by the tee child after its loop
(src/dp.c lines 177-179): head_to_tee[0], tee_to_leg1[1] and, at line 179,
tee_to_leg1[1] again. -/
def teeFinalCloses : List Endpoint :=
  [.headToTeeR, .teeToLeg1W, .teeToLeg1W]

/-- All close calls the tee child issues over its lifetime. -/
def teeCloses : List Endpoint := teeInitialCloses ++ teeFinalCloses

/-! ## The process launcher (createAndExecuteProcess, src/dp.c lines 93-125) -/

/-- Descriptor operations a launch child can perform. -/
inductive ChildOp where
  | dup2 (src tgt : Nat)
  | closeFd (fd : Nat)
  | execCmd
  | exitFail
deriving DecidableEq, Repr

/-- The close calls of closePipes (src/dp.c lines 85-90): for each pipe of
the array, in order, close its read end then its write end. -/
def closePipesOps : List (Nat × Nat) → List ChildOp
  | [] => []
  | p :: ps => ChildOp.closeFd p.1 :: ChildOp.closeFd p.2 :: closePipesOps ps

/-- All descriptors appearing in a pipes_to_close array. -/
def allEndpoints : List (Nat × Nat) → List Nat
  | [] => []
  | p :: ps => p.1 :: p.2 :: allEndpoints ps

/-- Child-side operation sequence of createAndExecuteProcess
(src/dp.c lines 103-121): first dup2(fd_to_dup, fd_to_target); on success
the child runs closePipes over pipes_to_close and then execvp; when dup2
fails the child exits at once with failure status and touches nothing
else. -/
def childOps (dupOk : Bool) (src tgt : Nat) (pipes : List (Nat × Nat)) :
    List ChildOp :=
  if dupOk then
    ChildOp.dup2 src tgt :: (closePipesOps pipes ++ [ChildOp.execCmd])
  else [ChildOp.dup2 src tgt, ChildOp.exitFail]

/-- Whether the parent side of createAndExecuteProcess blocks after a
successful fork: the parent branch of the function contains no statement at
all, in particular no wait, so control returns to the caller at once
(src/dp.c lines 96-125). -/
def launchParentBlocks : Bool := false

/-- The value createAndExecuteProcess hands back to its caller for a child
whose pid is childPid: the function is declared void (src/dp.c line 93) and
the pid obtained from fork is dropped when the function returns, so the
caller receives nothing. -/
def launchParentReturn (_childPid : Nat) : Option Nat := none

/-! ## The supervisor (doublePipe, src/dp.c lines 137-199) -/

/-- Child roles of the fixed four-process topology. -/
inductive Role where
  | head | tee | leg1 | leg2
deriving DecidableEq, Repr

/-- Operations the supervisor performs after its pipes exist. -/
inductive SupOp where
  | spawn (r : Role)
  | closeE (e : Endpoint)
  | waitAny
deriving DecidableEq, Repr

/-- Recognizes a spawn operation of the supervisor. -/
def isSpawn : SupOp → Bool
  | .spawn _ => true
  | _ => false

/-- Close order of closePipes over the pipes_to_close array built by the
parent (src/dp.c lines 85-90 and 148): read then write end of head_to_tee,
then of tee_to_leg1, then of tee_to_leg2. -/
def parentCloseOrder : List Endpoint :=
  [.headToTeeR, .headToTeeW, .teeToLeg1R, .teeToLeg1W, .teeToLeg2R, .teeToLeg2W]

/-- Success-path operation sequence of the supervisor in doublePipe
(src/dp.c lines 151-196): spawn the head, fork the tee, spawn leg1 and
leg2, close all six pipe endpoints, then wait four times. -/
def supervisorTrace : List SupOp :=
  [SupOp.spawn .head, SupOp.spawn .tee, SupOp.spawn .leg1, SupOp.spawn .leg2]
    ++ parentCloseOrder.map SupOp.closeE
    ++ List.replicate 4 SupOp.waitAny

/-- Return value of doublePipe on its success path (src/dp.c lines
196-198): each of the four waits is wait(NULL), discarding the status of
the reaped child, and the function then returns 0 whatever those statuses
were. -/
def doublePipeReturn (_childStatuses : List Nat) : Nat := 0

/-! ## End-to-end outcome of one invocation -/

/-- Diagnostic for pipe-creation failure (src/dp.c line 20). -/
def PIPE_ERR : String := "Error: failed to create pipe."

/-- Externally observable outcome of one invocation: exit code, number of
child processes spawned, number of pipes that pipe() successfully created
at any point, number of pipe objects still open once the invocation has
ended (process termination closes every descriptor the process held), and
the diagnostic the parent printed, if any. -/
structure Outcome where
  exitCode : Nat
  processesSpawned : Nat
  pipesCreated : Nat
  pipesRemaining : Nat
  diagnostic : Option String
deriving DecidableEq, Repr

/-- doublePipe (src/dp.c lines 137-198) abstracted over which of its three
pipe() calls succeed. The calls short-circuit (line 142), so the second
runs only after the first succeeds and the third only after the second.
On any pipe failure the parent prints PIPE_ERR and exits with EXIT_FAILURE
before reaching any fork; its termination closes the pipes already
created, so none remain. On the success path (forks taken as succeeding; a
fork failure likewise exits before further spawns) it spawns the four
children, closes every endpoint and returns 0. -/
def doublePipeOutcome (ok1 ok2 ok3 : Bool) : Outcome :=
  if ok1 then
    if ok2 then
      if ok3 then ⟨0, 4, 3, 0, none⟩
      else ⟨1, 0, 2, 0, some PIPE_ERR⟩
    else ⟨1, 0, 1, 0, some PIPE_ERR⟩
  else ⟨1, 0, 0, 0, some PIPE_ERR⟩

/-- main end to end (src/dp.c lines 29-80): parse argv[1..]; on a usage
error print the diagnostic and exit 1 before any pipe() or fork() call;
otherwise hand the three commands to doublePipe. -/
def mainRun (args : List String) (ok1 ok2 ok3 : Bool) : Outcome :=
  match parseArgs args with
  | .usageError msg => ⟨1, 0, 0, 0, some msg⟩
  | .ok _ _ _ => doublePipeOutcome ok1 ok2 ok3

/-! ## Helper lemmas -/

theorem scanCmd_no_colon (xs : List String) (h : ":" ∉ xs) :
    scanCmd xs = (xs, none) := by
  induction xs with
  | nil => rfl
  | cons a as ih =>
    have ha : ¬ a = ":" := fun hc => h (by simp [hc])
    have has : ":" ∉ as := fun hc => h (List.mem_cons_of_mem _ hc)
    simp [scanCmd, ha, ih has]

theorem scanCmd_append_colon (xs rest : List String) (h : ":" ∉ xs) :
    scanCmd (xs ++ ":" :: rest) = (xs, some rest) := by
  induction xs with
  | nil => simp [scanCmd]
  | cons a as ih =>
    have ha : ¬ a = ":" := fun hc => h (by simp [hc])
    have has : ":" ∉ as := fun hc => h (List.mem_cons_of_mem _ hc)
    simp [scanCmd, ha, ih has]

theorem parseArgs_nil : parseArgs [] = .usageError USAGE_MSG := rfl

theorem parseArgs_no_colon (xs : List String) (h1 : xs ≠ []) (h2 : ":" ∉ xs) :
    parseArgs xs = .usageError ONE_CMD_MSG := by
  rw [parseArgs, if_neg h1, scanCmd_no_colon xs h2]

theorem parseArgs_trailing_colon (xs ys : List String)
    (hx : ":" ∉ xs) (hy : ":" ∉ ys) :
    parseArgs (xs ++ ":" :: (ys ++ [":"])) = .usageError THIRD_CMD_MSG := by
  have hne : xs ++ ":" :: (ys ++ [":"]) ≠ [] := by
    cases xs <;> simp
  have h2 : scanCmd (ys ++ [":"]) = (ys, some []) := scanCmd_append_colon ys [] hy
  rw [parseArgs, if_neg hne, scanCmd_append_colon xs _ hx]
  simp [h2]

theorem closeFd_mem_closePipesOps (pipes : List (Nat × Nat)) (fd : Nat)
    (h : fd ∈ allEndpoints pipes) :
    ChildOp.closeFd fd ∈ closePipesOps pipes := by
  induction pipes with
  | nil => simp [allEndpoints] at h
  | cons p ps ih =>
    simp only [allEndpoints, List.mem_cons] at h
    simp only [closePipesOps, List.mem_cons]
    rcases h with h | h | h
    · exact Or.inl (by rw [h])
    · exact Or.inr (Or.inl (by rw [h]))
    · exact Or.inr (Or.inr (ih h))

theorem execCmd_not_mem_closePipesOps (pipes : List (Nat × Nat)) :
    ChildOp.execCmd ∉ closePipesOps pipes := by
  induction pipes with
  | nil => simp [closePipesOps]
  | cons p ps ih =>
    simp only [closePipesOps, List.mem_cons] at ih ⊢
    intro h
    rcases h with h | h | h
    · exact ChildOp.noConfusion h
    · exact ChildOp.noConfusion h
    · exact ih h

/-! ## Claim theorems -/

/-- C1: the code contradicts the claim that the tee child closes each of
the six endpoints exactly once. Evaluating the close calls of the tee
child shows it closes both ends of head_to_tee once, both ends of
tee_to_leg1 twice, and neither end of tee_to_leg2 at all. -/
theorem tee_endpoint_close_counts :
    teeCloses.count Endpoint.headToTeeR = 1 ∧
    teeCloses.count Endpoint.headToTeeW = 1 ∧
    teeCloses.count Endpoint.teeToLeg1R = 2 ∧
    teeCloses.count Endpoint.teeToLeg1W = 2 ∧
    teeCloses.count Endpoint.teeToLeg2R = 0 ∧
    teeCloses.count Endpoint.teeToLeg2W = 0 := by decide

/-- C2 counterexample: a short write is not retried. When the relay reads
the two-byte block 7, 8 and the single write call to leg1 accepts only one
byte while the one to leg2 accepts both, leg1 is left with one byte: the
claimed full delivery of every read block to each leg fails. -/
theorem relay_short_write_truncates :
    relayRun [[7, 8]] (fun _ => (1, 2)) 0 ≠ ([[7, 8]].flatten, [[7, 8]].flatten) := by
  decide

/-- C2 (amended): every iteration of the relay loop issues exactly one
write call to each leg endpoint, whatever the write results are — there is
no retry loop around either write, so bytes a call does not accept are
never re-sent. -/
theorem relay_single_write_per_iteration (chunks : List (List Nat))
    (o : Nat → Nat × Nat) (i : Nat) :
    (relayTrace chunks o i).countP isWriteLeg1 = chunks.length ∧
    (relayTrace chunks o i).countP isWriteLeg2 = chunks.length := by
  induction chunks generalizing i with
  | nil => simp [relayTrace]
  | cons c cs ih =>
    have h := ih (i + 1)
    simp [relayTrace, List.countP_cons, isWriteLeg1, isWriteLeg2, h.1, h.2]

/-- C3: fan-out equality. When every write call accepts the full block
(the blocking-pipe behavior the loop relies on), any byte sequence B the
head produces, read by the relay as a sequence of nonempty blocks of at
most BUFFER_SIZE bytes, is delivered byte for byte and in order to both
legs, and each iteration writes its block to leg1 first and then to
leg2. -/
theorem relay_fanout_equality (B : List Nat) (chunks : List (List Nat))
    (o : Nat → Nat × Nat) (i : Nat)
    (hB : chunks.flatten = B)
    (hc : ∀ c ∈ chunks, c ≠ [] ∧ c.length ≤ BUFFER_SIZE)
    (ho : ∀ j, BUFFER_SIZE ≤ (o j).1 ∧ BUFFER_SIZE ≤ (o j).2) :
    relayRun chunks o i = (B, B) ∧
    relayTrace chunks o i =
      (chunks.map fun c =>
        [RelayEvent.readChunk c, RelayEvent.writeLeg1 c,
          RelayEvent.writeLeg2 c]).flatten := by
  induction chunks generalizing i B with
  | nil =>
    subst hB
    exact ⟨rfl, rfl⟩
  | cons c cs ih =>
    have hcc := hc c (List.mem_cons_self c cs)
    have hcs : ∀ x ∈ cs, x ≠ [] ∧ x.length ≤ BUFFER_SIZE :=
      fun x hx => hc x (List.mem_cons_of_mem _ hx)
    have h1 : c.take (o i).1 = c :=
      List.take_of_length_le (le_trans hcc.2 (ho i).1)
    have h2 : c.take (o i).2 = c :=
      List.take_of_length_le (le_trans hcc.2 (ho i).2)
    have IH := ih cs.flatten (i + 1) rfl hcs
    subst hB
    constructor
    · simp [relayRun, h1, h2, IH.1]
    · simp [relayTrace, h1, h2, IH.2]

/-- C3 witness: the sequence 1, 2, 3 read as the blocks 1-2 and 3 under a
full-buffer write model reaches both legs intact. -/
theorem relay_fanout_equality_witness :
    relayRun [[1, 2], [3]] (fun _ => (1024, 1024)) 0 = ([1, 2, 3], [1, 2, 3]) :=
  (relay_fanout_equality [1, 2, 3] [[1, 2], [3]] (fun _ => (1024, 1024)) 0
    (by decide) (by decide) (fun _ => ⟨Nat.le.refl, Nat.le.refl⟩)).1

/-- C4: in every launch child whose binding succeeds, the dup2 of the
source endpoint onto the target stream is the first operation, after which
every descriptor of the pipes_to_close array — the bound source endpoint
among them — is closed, and the exec, which is no close, comes last. -/
theorem launch_child_descriptor_wiring (src tgt : Nat)
    (pipes : List (Nat × Nat)) (h : src ∈ allEndpoints pipes) :
    (childOps true src tgt pipes).head? = some (ChildOp.dup2 src tgt) ∧
    childOps true src tgt pipes =
      ChildOp.dup2 src tgt :: (closePipesOps pipes ++ [ChildOp.execCmd]) ∧
    (∀ fd ∈ allEndpoints pipes, ChildOp.closeFd fd ∈ closePipesOps pipes) ∧
    ChildOp.closeFd src ∈ closePipesOps pipes ∧
    ChildOp.execCmd ∉ closePipesOps pipes :=
  ⟨rfl, rfl, fun fd hfd => closeFd_mem_closePipesOps pipes fd hfd,
    closeFd_mem_closePipesOps pipes src h,
    execCmd_not_mem_closePipesOps pipes⟩

/-- C4 witness: pipes (3, 4), (5, 6) and (7, 8) with descriptor 4 bound
onto stream 1. -/
theorem launch_child_descriptor_wiring_witness :
    (childOps true 4 1 [(3, 4), (5, 6), (7, 8)]).head? =
      some (ChildOp.dup2 4 1) ∧
    ChildOp.closeFd 4 ∈ closePipesOps [(3, 4), (5, 6), (7, 8)] :=
  ⟨(launch_child_descriptor_wiring 4 1 [(3, 4), (5, 6), (7, 8)] (by decide)).1,
    (launch_child_descriptor_wiring 4 1 [(3, 4), (5, 6), (7, 8)]
      (by decide)).2.2.2.1⟩

/-- C5: on the success path the supervisor spawns the four children, then
closes each of the six pipe endpoints exactly once, then waits exactly four
times — as many waits as spawns — with nothing but waits once waiting has
begun, and doublePipe returns 0 whatever the statuses of the reaped
children were. -/
theorem supervisor_reaps_four_returns_zero (statuses : List Nat) :
    doublePipeReturn statuses = 0 ∧
    supervisorTrace.count SupOp.waitAny = 4 ∧
    supervisorTrace.countP isSpawn = 4 ∧
    (∀ e : Endpoint, (parentCloseOrder.map SupOp.closeE).count (SupOp.closeE e) = 1) ∧
    ((supervisorTrace.dropWhile fun op => op ≠ SupOp.waitAny).all
      fun op => op = SupOp.waitAny) = true ∧
    supervisorTrace =
      [SupOp.spawn .head, SupOp.spawn .tee, SupOp.spawn .leg1, SupOp.spawn .leg2]
        ++ parentCloseOrder.map SupOp.closeE
        ++ List.replicate 4 SupOp.waitAny :=
  ⟨rfl, by decide, by decide, by decide, by decide, rfl⟩

/-- C6: each malformed invocation — no arguments at all, no separator
token anywhere, or a trailing separator with no third command behind it —
prints its diagnostic and exits with status 1 without spawning a process
or creating a pipe, whatever the pipe() calls would have returned. -/
theorem malformed_invocation_exits_one (xs ys : List String)
    (ok1 ok2 ok3 : Bool) :
    mainRun [] ok1 ok2 ok3 = ⟨1, 0, 0, 0, some USAGE_MSG⟩ ∧
    (xs ≠ [] → ":" ∉ xs →
      mainRun xs ok1 ok2 ok3 = ⟨1, 0, 0, 0, some ONE_CMD_MSG⟩) ∧
    (":" ∉ xs → ":" ∉ ys →
      mainRun (xs ++ ":" :: (ys ++ [":"])) ok1 ok2 ok3 =
        ⟨1, 0, 0, 0, some THIRD_CMD_MSG⟩) := by
  refine ⟨rfl, fun h1 h2 => ?_, fun hx hy => ?_⟩
  · rw [mainRun, parseArgs_no_colon xs h1 h2]
  · rw [mainRun, parseArgs_trailing_colon xs ys hx hy]

/-- C6 witness: the one-token invocation and a trailing-separator
invocation both exit 1 with their diagnostics, zero spawns, zero pipes. -/
theorem malformed_invocation_exits_one_witness :
    mainRun ["a"] true true true = ⟨1, 0, 0, 0, some ONE_CMD_MSG⟩ ∧
    mainRun ["a", ":", "b", ":"] true true true =
      ⟨1, 0, 0, 0, some THIRD_CMD_MSG⟩ :=
  ⟨(malformed_invocation_exits_one ["a"] ["b"] true true true).2.1
      (by decide) (by decide),
    (malformed_invocation_exits_one ["a"] ["b"] true true true).2.2
      (by decide) (by decide)⟩

/-- C7 counterexample: the launch operation does not hand the pid of the
child back to its caller — the function is void, so for a child whose pid
is 42 the caller receives nothing rather than 42. -/
theorem launch_return_value_not_pid : launchParentReturn 42 ≠ some 42 := by
  decide

/-- C7 (amended): after a successful fork the parent side of the launch
operation does not block, but it returns no value at all: the pid of the
child is discarded. -/
theorem launch_parent_nonblocking_void (pid : Nat) :
    launchParentBlocks = false ∧ launchParentReturn pid = none :=
  ⟨rfl, rfl⟩

/-- C8: when any of the three pipe() calls fails, the invocation prints
the pipe diagnostic and exits with failure status having spawned no
process, and no pipe object survives the invocation; moreover processes
are ever spawned only with all three pipes in place. -/
theorem pipe_failure_aborts_before_spawn (ok1 ok2 ok3 : Bool)
    (h : ¬(ok1 = true ∧ ok2 = true ∧ ok3 = true)) :
    (doublePipeOutcome ok1 ok2 ok3).exitCode = 1 ∧
    (doublePipeOutcome ok1 ok2 ok3).processesSpawned = 0 ∧
    (doublePipeOutcome ok1 ok2 ok3).diagnostic = some PIPE_ERR ∧
    (doublePipeOutcome ok1 ok2 ok3).pipesRemaining = 0 ∧
    (∀ a b c : Bool, (doublePipeOutcome a b c).processesSpawned ≠ 0 →
      (doublePipeOutcome a b c).pipesCreated = 3) := by
  revert h
  cases ok1 <;> cases ok2 <;> cases ok3 <;> decide

/-- C8 witness: the second pipe() call failing. -/
theorem pipe_failure_aborts_before_spawn_witness :
    (doublePipeOutcome true false true).exitCode = 1 ∧
    (doublePipeOutcome true false true).processesSpawned = 0 :=
  ⟨(pipe_failure_aborts_before_spawn true false true (by decide)).1,
    (pipe_failure_aborts_before_spawn true false true (by decide)).2.1⟩

/-- C9 counterexample: a command of nine tokens still fits — the indices
stored to are exactly the valid indices 0 to 9 of the ten-slot array, the
index 9 of the NULL terminator included, and no stored index reaches the
capacity. -/
theorem nine_tokens_stay_in_bounds :
    cmdIndicesWritten 9 = List.range CMD_CAPACITY ∧
    CMD_CAPACITY ∉ cmdIndicesWritten 9 := by decide

/-- C9 (amended): copying a command of ten or more tokens stores to the
index k, which reaches or passes the ten-slot capacity — with exactly ten
tokens the store of the NULL terminator itself lands out of bounds, with
more the copy loop does. -/
theorem ten_tokens_overflow (k : Nat) (h : 10 ≤ k) :
    k ∈ cmdIndicesWritten k ∧ CMD_CAPACITY ≤ k := by
  refine ⟨?_, h⟩
  simp [cmdIndicesWritten, List.mem_range]

/-- C9 witness: ten tokens already store to index ten, at the capacity. -/
theorem ten_tokens_overflow_witness :
    10 ∈ cmdIndicesWritten 10 ∧ CMD_CAPACITY ≤ 10 :=
  ten_tokens_overflow 10 (by decide)

/-- C10: an empty first or second command passes the parser — only a
missing separator and an empty third command are rejected — and with an
empty first command, modelled as the empty token list standing for a cmd
array whose slot 0 holds NULL, the program goes on to create its three
pipes and spawn all four processes. -/
theorem empty_command_not_rejected :
    parseArgs [":", "b", ":", "c"] = ParseResult.ok [] ["b"] ["c"] ∧
    parseArgs ["a", ":", ":", "c"] = ParseResult.ok ["a"] [] ["c"] ∧
    mainRun [":", "b", ":", "c"] true true true = ⟨0, 4, 3, 0, none⟩ := by
  decide

end DP
